import Mathlib

/-!
Shallow embedding of the demo-gps-layer repository (GPS jamming/spoofing map demo).

Sources embedded:
- `src/js/jamming-layer.js`   : severity filter, union-by-severity, stats, loadData
- `src/js/spoofing-layer.js`  : combined-mode loadData, mode-dependent stats
- `src/js/map-manager.js`     : settings/refresh coordinator (refreshData, single-flight guard)
- `src/proxy-server.js`       : authenticating CORS proxy

JavaScript numbers are modelled as exact rationals (ℚ); the claims under test
involve only decimal constants and arithmetic means, which are exact here.
GeoJSON geometries are opaque to every claim, so they are modelled by an
abstract handle (ℕ); the external Turf.js union operation is a parameter
`uni : Feature → Feature → Option Feature` where `none` models a thrown
exception (the code catches it).
-/

namespace GpsDemo

/-- Property bag of a GeoJSON feature.  The fields named here are exactly the
ones the embedded code reads or writes (`ratio_bad`, `n_unique_ac`, `count`,
`flight_id`, `icao24`, and the three bookkeeping fields written by
`unionBySeverity`); all other properties are carried opaquely in `extra`,
so "properties are preserved except ..." is expressible. -/
structure Props where
  ratio_bad : Option ℚ := none
  n_unique_ac : Option ℚ := none
  count : Option ℚ := none
  flight_id : Option String := none
  icao24 : Option String := none
  severity_level : Option String := none
  unioned_count : Option Nat := none
  unioned : Option Bool := none
  extra : List (String × String) := []
deriving Repr, DecidableEq, Inhabited

/-- A GeoJSON feature: an opaque geometry handle plus properties. -/
structure Feature where
  geometry : Nat
  properties : Props
deriving Repr, DecidableEq, Inhabited

/-- A GeoJSON feature collection (ordered list of features). -/
structure FeatureCollection where
  features : List Feature
deriving Repr, DecidableEq, Inhabited

/-- JS `feature.properties.ratio_bad || 0` (absent ⇒ 0; a stored 0 is falsy
and also yields 0). -/
def defaultRatioBad (f : Feature) : ℚ :=
  f.properties.ratio_bad.getD 0

/-- jamming-layer.js `getSeverityLevel` (lines 142-146):
`if (ratioBad < 0.01) return 'zero'; if (ratioBad < 0.1) return 'low'; return 'high';` -/
def getSeverityLevel (ratioBad : ℚ) : String :=
  if ratioBad < 0.01 then "zero"
  else if ratioBad < 0.1 then "low"
  else "high"

/-- The retain predicate inside jamming-layer.js `filterBySeverity`
(lines 117-135): three early-return checks translated to a disjunction. -/
def severityPred (severityLevels : List String) (f : Feature) : Bool :=
  let ratioBad := defaultRatioBad f
  (severityLevels.contains "zero" && decide (ratioBad < 0.01)) ||
  (severityLevels.contains "low" && decide (0.01 ≤ ratioBad) && decide (ratioBad < 0.1)) ||
  (severityLevels.contains "high" && decide (0.1 ≤ ratioBad))

/-- jamming-layer.js `filterBySeverity` (lines 109-137): empty level list
returns the input unchanged, otherwise filters the features in order. -/
def filterBySeverity (geojson : FeatureCollection) (severityLevels : List String) :
    FeatureCollection :=
  if severityLevels.isEmpty then geojson
  else ⟨geojson.features.filter (severityPred severityLevels)⟩

/-- Spec-side bucket ranges for C1, from the spec's words: zero = [0, 0.01),
low = [0.01, 0.1), high = [0.1, ∞). -/
def inLevelRange (level : String) (r : ℚ) : Bool :=
  if level = "zero" then decide (0 ≤ r) && decide (r < 0.01)
  else if level = "low" then decide (0.01 ≤ r) && decide (r < 0.1)
  else if level = "high" then decide (0.1 ≤ r)
  else false

/-- Spec-side retain predicate for C1: a feature is retained iff its
`ratio_bad` (default 0) lies in at least one requested level's range. -/
def specRetain (severityLevels : List String) (f : Feature) : Bool :=
  severityLevels.any (fun l => inLevelRange l (defaultRatioBad f))

lemma inLevelRange_iff (l : String) (r : ℚ) :
    inLevelRange l r = true ↔
      (l = "zero" ∧ 0 ≤ r ∧ r < 0.01) ∨
      (l = "low" ∧ 0.01 ≤ r ∧ r < 0.1) ∨
      (l = "high" ∧ 0.1 ≤ r) := by
  unfold inLevelRange
  split_ifs with h1 h2 h3 <;> simp_all

lemma severityPred_eq_specRetain (severityLevels : List String) (f : Feature)
    (hr : 0 ≤ defaultRatioBad f) :
    severityPred severityLevels f = specRetain severityLevels f := by
  set r := defaultRatioBad f with hrdef
  have h1 : severityPred severityLevels f = true ↔
      ("zero" ∈ severityLevels ∧ r < 0.01) ∨
      ("low" ∈ severityLevels ∧ 0.01 ≤ r ∧ r < 0.1) ∨
      ("high" ∈ severityLevels ∧ 0.1 ≤ r) := by
    simp only [severityPred, List.contains, List.elem_eq_mem, Bool.or_eq_true,
      Bool.and_eq_true, decide_eq_true_eq, ← hrdef]
    tauto
  have h2 : specRetain severityLevels f = true ↔
      ∃ l ∈ severityLevels, inLevelRange l r = true := by
    simp [specRetain, ← hrdef]
  rw [Bool.eq_iff_iff, h1, h2]
  constructor
  · rintro (⟨hm, hb⟩ | ⟨hm, hb1, hb2⟩ | ⟨hm, hb⟩)
    · exact ⟨"zero", hm, (inLevelRange_iff _ _).mpr (Or.inl ⟨rfl, hr, hb⟩)⟩
    · exact ⟨"low", hm, (inLevelRange_iff _ _).mpr (Or.inr (Or.inl ⟨rfl, hb1, hb2⟩))⟩
    · exact ⟨"high", hm, (inLevelRange_iff _ _).mpr (Or.inr (Or.inr ⟨rfl, hb⟩))⟩
  · rintro ⟨l, hm, hl⟩
    rcases (inLevelRange_iff _ _).mp hl with ⟨he, _, hb⟩ | ⟨he, hb1, hb2⟩ | ⟨he, hb⟩
    · exact Or.inl ⟨he ▸ hm, hb⟩
    · exact Or.inr (Or.inl ⟨he ▸ hm, hb1, hb2⟩)
    · exact Or.inr (Or.inr ⟨he ▸ hm, hb⟩)

/-- C1: for every feature collection and list of requested severity level names
drawn from {zero, low, high}, an empty list makes `filterBySeverity` the
identity; otherwise the output features are exactly those whose `ratio_bad`
(default 0) lies in the half-open range of at least one requested level
(zero = [0, 0.01), low = [0.01, 0.1), high = [0.1, ∞)), in their original
order.  The nonnegativity hypothesis encodes the data model's invariant that
`ratio_bad` is a fraction of observations (spec §3: buckets cover [0, 1]). -/
theorem claim_C1_severity_filter (g : FeatureCollection) (severityLevels : List String)
    (hlv : ∀ l ∈ severityLevels, l = "zero" ∨ l = "low" ∨ l = "high")
    (hnn : ∀ f ∈ g.features, 0 ≤ defaultRatioBad f) :
    (severityLevels = [] → filterBySeverity g severityLevels = g) ∧
    (severityLevels ≠ [] →
      (filterBySeverity g severityLevels).features
        = g.features.filter (specRetain severityLevels)) := by
  constructor
  · intro h
    subst h
    simp [filterBySeverity]
  · intro h
    have hne : severityLevels.isEmpty = false := by
      cases severityLevels with
      | nil => exact absurd rfl h
      | cons a as => rfl
    unfold filterBySeverity
    rw [hne]
    simp only [Bool.false_eq_true, if_false]
    exact List.filter_congr fun f hf => severityPred_eq_specRetain _ _ (hnn f hf)

/-- C1 witness: a concrete run of the theorem on a 3-feature collection with
`ratio_bad` values 0.005, 0.05 and absent, requesting the low bucket. -/
theorem claim_C1_severity_filter_witness :
    (filterBySeverity
        ⟨[⟨0, { ratio_bad := some 0.005 }⟩,
          ⟨1, { ratio_bad := some 0.05 }⟩,
          ⟨2, {}⟩]⟩ ["low"]).features
      = [⟨0, { ratio_bad := some 0.005 }⟩,
         ⟨1, { ratio_bad := some 0.05 }⟩,
         ⟨2, {}⟩].filter (specRetain ["low"]) :=
  (claim_C1_severity_filter
      ⟨[⟨0, { ratio_bad := some 0.005 }⟩,
        ⟨1, { ratio_bad := some 0.05 }⟩,
        ⟨2, {}⟩]⟩ ["low"]
      (by intro l hl; simp at hl; simp [hl])
      (by
        intro f hf
        simp only [List.mem_cons, List.not_mem_nil, or_false] at hf
        rcases hf with h | h | h <;> subst h <;> norm_num [defaultRatioBad])).2
    (by simp)

/-! ### Union by severity (jamming-layer.js lines 152-227)

The external `turf.union` call is modelled by a parameter
`uni : Feature → Feature → Option Feature`; `none` models a thrown exception
(caught by the `try`/`catch` in the source).  The model assumes Turf.js is
loaded (the source's `typeof turf === 'undefined'` early return is an
environment check outside the data path). -/

/-- Iteration order of `Object.keys(severityGroups)`: insertion order of the
literal `{ zero: [], low: [], high: [] }`. -/
def severityNames : List String := ["zero", "low", "high"]

/-- The group of features pushed into `severityGroups[s]` by the forEach loop
(lines 170-174): a stable partition of the features by severity of their
`ratio_bad` (default 0). -/
def groupOf (geojson : FeatureCollection) (s : String) : List Feature :=
  geojson.features.filter fun f => decide (getSeverityLevel (defaultRatioBad f) = s)

/-- The sequential `for` loop of lines 189-194:
`unionedPolygon = turf.union(featureCollection([unionedPolygon, features[i]]))`,
with `none` propagating a thrown exception. -/
def foldUnion (uni : Feature → Feature → Option Feature) :
    Feature → List Feature → Option Feature
  | acc, [] => some acc
  | acc, f :: rest =>
    match uni acc f with
    | some u => foldUnion uni u rest
    | none => none

/-- The whole-group union attempt for a non-empty group. -/
def groupUnion (uni : Feature → Feature → Option Feature) :
    List Feature → Option Feature
  | [] => none
  | f0 :: rest => foldUnion uni f0 rest

/-- Lines 198-202: `features.reduce((sum, f) => sum + (f.properties.ratio_bad || 0), 0) / features.length`. -/
def avgRatioBad (features : List Feature) : ℚ :=
  (features.foldl (fun sum f => sum + defaultRatioBad f) 0) / features.length

/-- Contribution of one severity group to `unionedFeatures` (lines 183-220):
empty group skipped; singleton pushed unchanged; larger group merged into a
synthetic feature, or — if the union throws — the original features are pushed. -/
def bucketContrib (uni : Feature → Feature → Option Feature) (severity : String)
    (features : List Feature) : List Feature :=
  match features with
  | [] => []
  | [f] => [f]
  | f0 :: f1 :: rest =>
    match foldUnion uni f0 (f1 :: rest) with
    | some unionedPolygon =>
      [{ geometry := unionedPolygon.geometry,
         properties :=
           { f0.properties with
             ratio_bad := some (avgRatioBad (f0 :: f1 :: rest)),
             severity_level := some severity,
             unioned_count := some (f0 :: f1 :: rest).length,
             unioned := some true } }]
    | none => f0 :: f1 :: rest

/-- jamming-layer.js `unionBySeverity` (lines 152-227). -/
def unionBySeverity (uni : Feature → Feature → Option Feature)
    (geojson : FeatureCollection) : FeatureCollection :=
  if geojson.features.isEmpty then geojson
  else ⟨severityNames.flatMap fun severity => bucketContrib uni severity (groupOf geojson severity)⟩

/-- Spec-side arithmetic mean of the group's `ratio_bad` values (C2's words). -/
def specMean (features : List Feature) : ℚ :=
  (features.map defaultRatioBad).sum / features.length

/-- Spec-side contribution of one bucket per C2's words, parameterized by the
merged geometry (which the claim does not constrain). -/
def c2SpecContrib (severity : String) (features : List Feature) (mergedGeom : Nat) :
    List Feature :=
  match features with
  | [] => []
  | [f] => [f]
  | f0 :: f1 :: rest =>
    [{ geometry := mergedGeom,
       properties :=
         { f0.properties with
           ratio_bad := some (specMean (f0 :: f1 :: rest)),
           severity_level := some severity,
           unioned_count := some (f0 :: f1 :: rest).length,
           unioned := some true } }]

/-- Geometry produced by a successful whole-group union (0 when unused). -/
def c2Geom (uni : Feature → Feature → Option Feature) (features : List Feature) : Nat :=
  match features with
  | f0 :: f1 :: rest =>
    match foldUnion uni f0 (f1 :: rest) with
    | some u => u.geometry
    | none => 0
  | _ => 0

lemma unionBySeverity_features (uni : Feature → Feature → Option Feature)
    (g : FeatureCollection) :
    (unionBySeverity uni g).features
      = severityNames.flatMap fun s => bucketContrib uni s (groupOf g s) := by
  by_cases h : g.features.isEmpty
  · have h' : g.features = [] := by simpa using h
    simp [unionBySeverity, h, groupOf, h', bucketContrib, severityNames]
  · simp [unionBySeverity, h]

lemma foldl_add_ratio (features : List Feature) (c : ℚ) :
    features.foldl (fun sum f => sum + defaultRatioBad f) c
      = c + (features.map defaultRatioBad).sum := by
  induction features generalizing c with
  | nil => simp
  | cons f fs ih => simp [ih, add_assoc]

lemma avgRatioBad_eq_specMean (features : List Feature) :
    avgRatioBad features = specMean features := by
  unfold avgRatioBad specMean
  rw [foldl_add_ratio, zero_add]

lemma foldUnion_isSome (uni : Feature → Feature → Option Feature)
    (huni : ∀ a b, (uni a b).isSome) (acc : Feature) (fs : List Feature) :
    (foldUnion uni acc fs).isSome := by
  induction fs generalizing acc with
  | nil => simp [foldUnion]
  | cons f fs ih =>
    have h := huni acc f
    unfold foldUnion
    cases hu : uni acc f with
    | some u => exact ih u
    | none => rw [hu] at h; simp at h

lemma bucketContrib_total (uni : Feature → Feature → Option Feature)
    (huni : ∀ a b, (uni a b).isSome) (severity : String) (features : List Feature) :
    bucketContrib uni severity features
      = c2SpecContrib severity features (c2Geom uni features) := by
  match features with
  | [] => rfl
  | [f] => rfl
  | f0 :: f1 :: rest =>
    have h := foldUnion_isSome uni huni f0 (f1 :: rest)
    cases hu : foldUnion uni f0 (f1 :: rest) with
    | none => rw [hu] at h; simp at h
    | some u =>
      simp [bucketContrib, c2SpecContrib, c2Geom, hu, avgRatioBad_eq_specMean]

/-- C2: when the geometric union never fails, `unionBySeverity` partitions the
features by severity bucket of `ratio_bad` (default 0); a singleton bucket
contributes its feature unchanged and a bucket of N > 1 features contributes
exactly one synthetic feature whose properties are the first member's except
`ratio_bad` becomes the group's arithmetic mean (here exact, hence within
tolerance 1e-9), plus `severity_level` = bucket name, `unioned_count` = N and
`unioned` = true. -/
theorem claim_C2_union_by_severity (uni : Feature → Feature → Option Feature)
    (huni : ∀ a b, (uni a b).isSome) (g : FeatureCollection) :
    ((unionBySeverity uni g).features
        = severityNames.flatMap fun s =>
            c2SpecContrib s (groupOf g s) (c2Geom uni (groupOf g s))) ∧
    (∀ s, 2 ≤ (groupOf g s).length →
      ∀ u ∈ bucketContrib uni s (groupOf g s),
        u.properties.ratio_bad = some (specMean (groupOf g s)) ∧
        |u.properties.ratio_bad.getD 0 - specMean (groupOf g s)| ≤ 1e-9) := by
  constructor
  · rw [unionBySeverity_features]
    exact congrArg _ (funext fun s => bucketContrib_total uni huni s _)
  · intro s hlen u hu
    match hg : groupOf g s with
    | [] => rw [hg] at hlen; simp at hlen
    | [f] => rw [hg] at hlen; simp at hlen
    | f0 :: f1 :: rest =>
      rw [hg] at hu
      rw [bucketContrib_total uni huni] at hu
      have h := foldUnion_isSome uni huni f0 (f1 :: rest)
      cases hfu : foldUnion uni f0 (f1 :: rest) with
      | none => rw [hfu] at h; simp at h
      | some w =>
        simp only [c2SpecContrib, c2Geom, hfu, List.mem_singleton] at hu
        subst hu
        refine ⟨rfl, ?_⟩
        show |specMean (f0 :: f1 :: rest) - specMean (f0 :: f1 :: rest)| ≤ 1e-9
        rw [sub_self, abs_zero]
        norm_num

/-- C2 witness: the theorem applied to a keep-first union function and a
four-feature collection spanning the zero and high buckets. -/
theorem claim_C2_union_by_severity_witness :
    ((unionBySeverity (fun a _ => some a)
        ⟨[⟨0, { ratio_bad := some 0.2 }⟩, ⟨1, {}⟩,
          ⟨2, { ratio_bad := some 0.4 }⟩, ⟨3, { ratio_bad := some 0.005 }⟩]⟩).features
        = severityNames.flatMap fun s =>
            c2SpecContrib s
              (groupOf ⟨[⟨0, { ratio_bad := some 0.2 }⟩, ⟨1, {}⟩,
                ⟨2, { ratio_bad := some 0.4 }⟩, ⟨3, { ratio_bad := some 0.005 }⟩]⟩ s)
              (c2Geom (fun a _ => some a)
                (groupOf ⟨[⟨0, { ratio_bad := some 0.2 }⟩, ⟨1, {}⟩,
                  ⟨2, { ratio_bad := some 0.4 }⟩, ⟨3, { ratio_bad := some 0.005 }⟩]⟩ s))) ∧
    (∀ s, 2 ≤ (groupOf ⟨[⟨0, { ratio_bad := some 0.2 }⟩, ⟨1, {}⟩,
          ⟨2, { ratio_bad := some 0.4 }⟩, ⟨3, { ratio_bad := some 0.005 }⟩]⟩ s).length →
      ∀ u ∈ bucketContrib (fun a _ => some a) s
          (groupOf ⟨[⟨0, { ratio_bad := some 0.2 }⟩, ⟨1, {}⟩,
            ⟨2, { ratio_bad := some 0.4 }⟩, ⟨3, { ratio_bad := some 0.005 }⟩]⟩ s),
        u.properties.ratio_bad
            = some (specMean (groupOf ⟨[⟨0, { ratio_bad := some 0.2 }⟩, ⟨1, {}⟩,
                ⟨2, { ratio_bad := some 0.4 }⟩, ⟨3, { ratio_bad := some 0.005 }⟩]⟩ s)) ∧
        |u.properties.ratio_bad.getD 0
            - specMean (groupOf ⟨[⟨0, { ratio_bad := some 0.2 }⟩, ⟨1, {}⟩,
                ⟨2, { ratio_bad := some 0.4 }⟩, ⟨3, { ratio_bad := some 0.005 }⟩]⟩ s)| ≤ 1e-9) :=
  claim_C2_union_by_severity (fun a _ => some a) (fun _ _ => rfl) _

/-- C3: if the geometric union throws for one severity bucket (of at least two
features), `unionBySeverity` still returns normally (the exception is caught,
not propagated), includes that bucket's original unmerged features in the
output, and processes all other buckets as usual. -/
theorem claim_C3_union_failure_fallback (uni : Feature → Feature → Option Feature)
    (g : FeatureCollection) (s : String) (hs : s ∈ severityNames)
    (hlen : 2 ≤ (groupOf g s).length)
    (hfail : groupUnion uni (groupOf g s) = none) :
    bucketContrib uni s (groupOf g s) = groupOf g s ∧
    (unionBySeverity uni g).features
      = severityNames.flatMap fun t =>
          if t = s then groupOf g t else bucketContrib uni t (groupOf g t) := by
  have hself : bucketContrib uni s (groupOf g s) = groupOf g s := by
    match hg : groupOf g s with
    | [] => rw [hg] at hlen; simp at hlen
    | [f] => rw [hg] at hlen; simp at hlen
    | f0 :: f1 :: rest =>
      rw [hg] at hfail
      simp only [groupUnion] at hfail
      simp [bucketContrib, hfail]
  refine ⟨hself, ?_⟩
  rw [unionBySeverity_features]
  refine congrArg _ (funext fun t => ?_)
  by_cases ht : t = s
  · subst ht
    simp [hself]
  · simp [ht]

/-- C3 witness: the theorem applied to an always-throwing union and a
collection with two zero-bucket features and one high-bucket feature. -/
theorem claim_C3_union_failure_fallback_witness :
    bucketContrib (fun _ _ => none) "zero"
        (groupOf ⟨[⟨0, {}⟩, ⟨1, { ratio_bad := some 0.004 }⟩,
          ⟨2, { ratio_bad := some 0.5 }⟩]⟩ "zero")
      = groupOf ⟨[⟨0, {}⟩, ⟨1, { ratio_bad := some 0.004 }⟩,
          ⟨2, { ratio_bad := some 0.5 }⟩]⟩ "zero" ∧
    (unionBySeverity (fun _ _ => none)
        ⟨[⟨0, {}⟩, ⟨1, { ratio_bad := some 0.004 }⟩,
          ⟨2, { ratio_bad := some 0.5 }⟩]⟩).features
      = severityNames.flatMap fun t =>
          if t = "zero" then
            groupOf ⟨[⟨0, {}⟩, ⟨1, { ratio_bad := some 0.004 }⟩,
              ⟨2, { ratio_bad := some 0.5 }⟩]⟩ t
          else
            bucketContrib (fun _ _ => none) t
              (groupOf ⟨[⟨0, {}⟩, ⟨1, { ratio_bad := some 0.004 }⟩,
                ⟨2, { ratio_bad := some 0.5 }⟩]⟩ t) :=
  claim_C3_union_failure_fallback (fun _ _ => none) _ "zero"
    (by simp [severityNames])
    (by norm_num [groupOf, getSeverityLevel, defaultRatioBad])
    (by norm_num [groupOf, groupUnion, foldUnion, getSeverityLevel, defaultRatioBad])

/-! ### Statistics (jamming-layer.js lines 286-325, spoofing-layer.js lines 220-270) -/

/-- A possibly-degenerate GeoJSON value as received by `calculateStats`:
`none` at the outer level models `null`/`undefined`, an inner `none` models an
object without a `features` array (the code guards `!geojson || !geojson.features`). -/
structure GeoJSONVal where
  features? : Option (List Feature)
deriving Repr, DecidableEq, Inhabited

/-- Wrap a well-formed feature collection for a `calculateStats` call. -/
def fcInput (g : FeatureCollection) : Option GeoJSONVal :=
  some ⟨some g.features⟩

/-- The stats object; JS returns differently-shaped literals per mode, modelled
by optional fields (`undefined` = absent key, as tested by `updateStats`). -/
structure StatsObj where
  totalCells : Nat
  uniqueAircraft : Option ℚ := none
  highSeverityCells : Option Nat := none
  totalAffected : Option ℚ := none
  highCountCells : Option Nat := none
deriving Repr, DecidableEq, Inhabited

/-- The `{ totalCells: 0, uniqueAircraft: 0, highSeverityCells: 0 }` literal
returned by both guards. -/
def zeroStats : StatsObj :=
  { totalCells := 0, uniqueAircraft := some 0, highSeverityCells := some 0 }

/-- jamming-layer.js `calculateStats` (lines 286-325).  The forEach loop's two
accumulators are translated separately: the `n_unique_ac` sum keeps the JS
truthiness test (`if (props.n_unique_ac)` skips absent and zero values), and
the high-severity count keeps `props.ratio_bad >= 0.3` (false when absent). -/
def jammingCalculateStats (geojson : Option GeoJSONVal)
    (dataSource : String := "jamming/agg") : StatsObj :=
  match geojson with
  | none => zeroStats
  | some gv =>
    match gv.features? with
    | none => zeroStats
    | some features =>
      if dataSource = "jamming/coverage" then
        { totalCells := features.length, uniqueAircraft := some 0,
          highSeverityCells := some 0 }
      else
        { totalCells := features.length,
          uniqueAircraft := some (features.foldl (fun acc f =>
            match f.properties.n_unique_ac with
            | some v => if v = 0 then acc else acc + v
            | none => acc) 0),
          highSeverityCells := some (features.countP fun f =>
            match f.properties.ratio_bad with
            | some r => decide (0.3 ≤ r)
            | none => false) }

/-- spoofing-layer.js `calculateStats` (lines 220-270), with `this.currentMode`
passed explicitly.  H3 mode: `count || 0` summed and `count >= 10` tallied.
Agg mode: JS `Set` sizes become distinct-value counts; the truthiness guards
`if (props.flight_id)` / `if (props.icao24)` skip absent and empty strings. -/
def spoofingCalculateStats (currentMode : String) (geojson : Option GeoJSONVal) :
    StatsObj :=
  match geojson with
  | none => zeroStats
  | some gv =>
    match gv.features? with
    | none => zeroStats
    | some features =>
      if currentMode = "h3" then
        { totalCells := features.length,
          totalAffected := some ((features.map fun f => f.properties.count.getD 0).sum),
          highCountCells := some (features.countP fun f =>
            decide (10 ≤ f.properties.count.getD 0)) }
      else
        { totalCells := features.length,
          uniqueAircraft := some
            (((features.filterMap fun f => f.properties.icao24).filter
                (fun s => decide (s ≠ ""))).dedup.length : ℚ),
          highSeverityCells := some
            ((features.filterMap fun f => f.properties.flight_id).filter
                (fun s => decide (s ≠ ""))).dedup.length }

lemma foldl_n_unique_ac (features : List Feature) (c : ℚ) :
    features.foldl (fun acc f =>
        match f.properties.n_unique_ac with
        | some v => if v = 0 then acc else acc + v
        | none => acc) c
      = c + (features.map fun f => f.properties.n_unique_ac.getD 0).sum := by
  induction features generalizing c with
  | nil => simp
  | cons f fs ih =>
    cases h : f.properties.n_unique_ac with
    | none => simp [h, ih]
    | some v =>
      by_cases hv : v = 0
      · simp [h, hv, ih]
      · simp [h, hv, ih, add_assoc]

lemma highSeverity_pred_eq (f : Feature) :
    (match f.properties.ratio_bad with
      | some r => decide ((0.3 : ℚ) ≤ r)
      | none => false)
      = decide ((0.3 : ℚ) ≤ f.properties.ratio_bad.getD 0) := by
  cases h : f.properties.ratio_bad with
  | some r => simp [h]
  | none =>
    simp only [h, Option.getD_none]
    symm
    rw [decide_eq_false_iff_not]
    norm_num

lemma jammingAggStats_eq (features : List Feature) :
    jammingCalculateStats (fcInput ⟨features⟩) "jamming/agg"
      = { totalCells := features.length,
          uniqueAircraft :=
            some ((features.map fun f => f.properties.n_unique_ac.getD 0).sum),
          highSeverityCells :=
            some (features.countP fun f =>
              decide ((0.3 : ℚ) ≤ f.properties.ratio_bad.getD 0)) } := by
  simp only [jammingCalculateStats, fcInput, String.reduceEq, if_false]
  refine StatsObj.mk.injEq .. |>.mpr ⟨rfl, ?_, ?_, rfl, rfl⟩
  · rw [foldl_n_unique_ac, zero_add]
  · refine congrArg _ (List.countP_congr fun f _ => ?_)
    rw [highSeverity_pred_eq f]

/-- C5: jamming `calculateStats` in agg mode returns the feature count, the sum
of `n_unique_ac` (absent = 0) and the number of features with
`ratio_bad ≥ 0.3`; in coverage mode it returns the feature count with the
other two fields zero; and on the spec's end-to-end example of three features
with `ratio_bad` 0.02, 0.12, 0.4 it yields totalCells = 3 and
highSeverityCells = 1. -/
theorem claim_C5_jamming_stats (features : List Feature) :
    (jammingCalculateStats (fcInput ⟨features⟩) "jamming/agg"
        = { totalCells := features.length,
            uniqueAircraft :=
              some ((features.map fun f => f.properties.n_unique_ac.getD 0).sum),
            highSeverityCells :=
              some (features.countP fun f =>
                decide ((0.3 : ℚ) ≤ f.properties.ratio_bad.getD 0)) }) ∧
    (jammingCalculateStats (fcInput ⟨features⟩) "jamming/coverage"
        = { totalCells := features.length, uniqueAircraft := some 0,
            highSeverityCells := some 0 }) ∧
    ((jammingCalculateStats (fcInput ⟨[⟨0, { ratio_bad := some 0.02 }⟩,
          ⟨1, { ratio_bad := some 0.12 }⟩,
          ⟨2, { ratio_bad := some 0.4 }⟩]⟩) "jamming/agg").totalCells = 3 ∧
      (jammingCalculateStats (fcInput ⟨[⟨0, { ratio_bad := some 0.02 }⟩,
          ⟨1, { ratio_bad := some 0.12 }⟩,
          ⟨2, { ratio_bad := some 0.4 }⟩]⟩) "jamming/agg").highSeverityCells
        = some 1) := by
  refine ⟨jammingAggStats_eq features, ?_, ?_, ?_⟩
  · simp [jammingCalculateStats, fcInput]
  · rw [jammingAggStats_eq]
    rfl
  · rw [jammingAggStats_eq]
    show some _ = some 1
    simp only [List.countP_cons, List.countP_nil, Option.some.injEq, Option.getD_some]
    norm_num

/-! ### Spoofing loadData (spoofing-layer.js lines 149-205) -/

/-- Response metadata surfaced by the API client (api-client.js lines 49-57). -/
structure Metadata where
  periodStart : Option String := none
  periodEnd : Option String := none
  status : Nat := 200
  url : String := ""
deriving Repr, DecidableEq, Inhabited

/-- A decoded API response: `{ data, metadata }`. -/
structure ApiResponse where
  data : FeatureCollection
  metadata : Metadata
deriving Repr, DecidableEq, Inhabited

/-- The object returned by each layer's `loadData`. -/
structure LoadResult where
  data : FeatureCollection
  metadata : Metadata
  stats : StatsObj
deriving Repr, DecidableEq, Inhabited

/-- spoofing-layer.js `loadData` (lines 149-205), with the two fetches'
responses passed in (in single-source mode only the selected one is fetched
and used).  `isH3` is `options.dataSource === 'spoofing/h3'` and `showBoth` is
`options.showBothSpoofingLayers === true`. -/
def spoofingLoadData (isH3 showBoth : Bool)
    (aggResponse h3Response : ApiResponse) : LoadResult :=
  let currentMode := if isH3 then "h3" else "agg"
  if showBoth then
    let merged : FeatureCollection :=
      ⟨aggResponse.data.features ++ h3Response.data.features⟩
    let statsData := if isH3 then h3Response.data else aggResponse.data
    let metadata := if isH3 then h3Response.metadata else aggResponse.metadata
    { data := merged, metadata := metadata,
      stats := spoofingCalculateStats currentMode (fcInput statsData) }
  else
    let response := if isH3 then h3Response else aggResponse
    { data := response.data, metadata := response.metadata,
      stats := spoofingCalculateStats currentMode (fcInput response.data) }

/-- C4: in combined spoofing mode, the rendered collection is the concatenation
of the event-level and density-grid collections (feature count = sum), while
the stats are computed from only the originally selected source's collection,
not from the concatenation. -/
theorem claim_C4_combined_spoofing (isH3 : Bool)
    (aggResponse h3Response : ApiResponse) :
    (spoofingLoadData isH3 true aggResponse h3Response).data.features.length
        = aggResponse.data.features.length + h3Response.data.features.length ∧
    (spoofingLoadData isH3 true aggResponse h3Response).stats
        = spoofingCalculateStats (if isH3 then "h3" else "agg")
            (fcInput (if isH3 then h3Response.data else aggResponse.data)) := by
  constructor
  · simp [spoofingLoadData]
  · simp [spoofingLoadData]

/-! ### Jamming loadData (jamming-layer.js lines 232-271) and the
settings/refresh coordinator (map-manager.js lines 352-375 and 664-697).

`loadData` is async: its one effectful dependency, the API fetch, is passed in
as an `Except` value (`error` = rejected promise).  `refreshData` is split at
its `await` into `refreshStart` (the single-flight guard plus setting the
loading flag — the returned Bool says whether a network request is initiated)
and `refreshFinish` (the code after the `await` resolves or rejects, including
the `finally`). -/

/-- The `options` fields that jamming-layer.js `loadData` reads. -/
structure JamOptions where
  dataSource : String := "jamming/agg"
  jammingSeverityLevels : List String := []
  unionBySeverity : Bool := false
deriving Repr, DecidableEq, Inhabited

/-- Mutable fields of the `JammingLayer` instance touched by `loadData`:
`currentData`, `metadata`, and the map source contents (`updateSource`). -/
structure JamLayerState where
  currentData : Option FeatureCollection := none
  metadata : Option Metadata := none
  mapData : Option FeatureCollection := none
deriving Repr, DecidableEq, Inhabited

/-- jamming-layer.js `loadData` (lines 232-271).  On a rejected fetch the
catch block logs and rethrows, so the state is returned untouched and the
error propagates; on success the data is filtered (agg only), optionally
unioned (agg only), stored, pushed to the map source, and returned with
metadata and stats.  `options.dataSource || 'jamming/agg'` defaults both an
absent and an empty-string selector. -/
def jammingLoadData (uni : Feature → Feature → Option Feature)
    (st : JamLayerState) (options : JamOptions)
    (fetchResult : Except String ApiResponse) :
    JamLayerState × Except String LoadResult :=
  match fetchResult with
  | .error e => (st, .error e)
  | .ok response =>
    let dataSource := if options.dataSource = "" then "jamming/agg" else options.dataSource
    let severityLevels := options.jammingSeverityLevels
    let filteredData :=
      if dataSource = "jamming/agg" then filterBySeverity response.data severityLevels
      else response.data
    let filteredData2 :=
      if dataSource = "jamming/agg" && options.unionBySeverity then
        unionBySeverity uni filteredData
      else filteredData
    ({ currentData := some filteredData2, metadata := some response.metadata,
       mapData := some filteredData2 },
     .ok { data := filteredData2, metadata := response.metadata,
           stats := jammingCalculateStats (fcInput filteredData2) dataSource })

/-- Coordinator state touched by map-manager.js `refreshData`: the loading
flag, the stored JSON data, and the three derived views (stats panel, JSON
tree, table — the latter two both rendered by `updateJsonDisplay`). -/
structure AppState where
  isLoading : Bool := false
  currentJsonData : Option FeatureCollection := none
  statsView : Option (StatsObj × Metadata) := none
  jsonView : Option FeatureCollection := none
  tableView : Option FeatureCollection := none
  errorNotice : Bool := false
deriving Repr, DecidableEq, Inhabited

/-- map-manager.js `refreshData` (lines 664-671) up to the `await`: if a load
is in flight, log and return (no network call); otherwise set the loading
flag and issue the request.  The Bool is whether a network call is made. -/
def refreshStart (st : AppState) : AppState × Bool :=
  if st.isLoading then (st, false)
  else ({ st with isLoading := true }, true)

/-- map-manager.js `refreshData` (lines 676-696) after the `await`: success
stores the result and re-renders the stats panel and the JSON/table views;
failure shows an error notice and changes nothing else; the `finally` clears
the loading flag in both cases. -/
def refreshFinish (st : AppState) (result : Except String LoadResult) : AppState :=
  match result with
  | .ok r =>
    { st with currentJsonData := some r.data,
              statsView := some (r.stats, r.metadata),
              jsonView := some r.data,
              tableView := some r.data,
              isLoading := false }
  | .error _ => { st with errorNotice := true, isLoading := false }

/-- One complete refresh round in which the fetch (if issued) settles with
`result`. -/
def refreshData (st : AppState) (result : Except String LoadResult) : AppState :=
  let started := refreshStart st
  if started.2 then refreshFinish started.1 result else started.1

/-- C6: a refresh whose fetch rejects leaves all prior state untouched: the
jamming layer returns with `currentData`, `metadata` and the map source
unchanged and the error propagated, and the coordinator keeps its stored JSON
data and all derived views, its only observable effect being the error
notice. -/
theorem claim_C6_failed_refresh_preserves_state
    (uni : Feature → Feature → Option Feature) (st : JamLayerState)
    (options : JamOptions) (e : String) (app : AppState)
    (hidle : app.isLoading = false) :
    jammingLoadData uni st options (.error e) = (st, .error e) ∧
    refreshData app (.error e) = { app with errorNotice := true } := by
  refine ⟨rfl, ?_⟩
  cases app with
  | mk il cj sv jv tv en =>
    simp only at hidle
    subst hidle
    rfl

/-- C6 witness: the theorem at a concrete populated coordinator and layer
state with a concrete rejected fetch. -/
theorem claim_C6_failed_refresh_preserves_state_witness :
    jammingLoadData (fun a _ => some a)
        { currentData := some ⟨[⟨7, {}⟩]⟩, metadata := some {},
          mapData := some ⟨[⟨7, {}⟩]⟩ }
        {} (.error "HTTP 502")
      = ({ currentData := some ⟨[⟨7, {}⟩]⟩, metadata := some {},
           mapData := some ⟨[⟨7, {}⟩]⟩ }, .error "HTTP 502") ∧
    refreshData { currentJsonData := some ⟨[⟨7, {}⟩]⟩ } (.error "HTTP 502")
      = { currentJsonData := some ⟨[⟨7, {}⟩]⟩, errorNotice := true } :=
  claim_C6_failed_refresh_preserves_state (fun a _ => some a)
    { currentData := some ⟨[⟨7, {}⟩]⟩, metadata := some {},
      mapData := some ⟨[⟨7, {}⟩]⟩ }
    {} "HTTP 502" { currentJsonData := some ⟨[⟨7, {}⟩]⟩ } rfl

/-- C7: a refresh requested while one is in flight is dropped, not queued —
no network call is made and the coordinator state is unchanged, so the
original call's eventually-resolved result alone determines the final state;
and any completed refresh (success or failure) clears the loading flag, so a
later refresh proceeds. -/
theorem claim_C7_single_flight_guard (st : AppState) (hbusy : st.isLoading = true) :
    refreshStart st = (st, false) ∧
    (∀ result, refreshFinish (refreshStart st).1 result = refreshFinish st result) ∧
    (∀ (st2 : AppState) (result : Except String LoadResult),
      (refreshFinish st2 result).isLoading = false ∧
      (refreshStart (refreshFinish st2 result)).2 = true) := by
  refine ⟨by simp [refreshStart, hbusy], fun result => by simp [refreshStart, hbusy],
    fun st2 result => ⟨?_, ?_⟩⟩
  · cases result <;> rfl
  · have h : (refreshFinish st2 result).isLoading = false := by cases result <;> rfl
    simp [refreshStart, h]

/-- C7 witness: the theorem at a coordinator state whose loading flag is set. -/
theorem claim_C7_single_flight_guard_witness :
    refreshStart { isLoading := true, currentJsonData := some ⟨[⟨7, {}⟩]⟩ }
      = ({ isLoading := true, currentJsonData := some ⟨[⟨7, {}⟩]⟩ }, false) ∧
    (∀ result,
      refreshFinish
          (refreshStart { isLoading := true, currentJsonData := some ⟨[⟨7, {}⟩]⟩ }).1
          result
        = refreshFinish { isLoading := true, currentJsonData := some ⟨[⟨7, {}⟩]⟩ } result) ∧
    (∀ (st2 : AppState) (result : Except String LoadResult),
      (refreshFinish st2 result).isLoading = false ∧
      (refreshStart (refreshFinish st2 result)).2 = true) :=
  claim_C7_single_flight_guard { isLoading := true, currentJsonData := some ⟨[⟨7, {}⟩]⟩ } rfl

lemma spoofingH3Stats_eq (features : List Feature) :
    spoofingCalculateStats "h3" (fcInput ⟨features⟩)
      = { totalCells := features.length,
          totalAffected := some ((features.map fun f => f.properties.count.getD 0).sum),
          highCountCells := some (features.countP fun f =>
            decide (10 ≤ f.properties.count.getD 0)) } := by
  simp [spoofingCalculateStats, fcInput]

/-- C10: both layers' `calculateStats` are total at the public interface —
null/undefined input and input without a features array yield the all-zero
stats object rather than an exception — and per feature a missing `ratio_bad`
is never counted as high severity, a missing `n_unique_ac` contributes 0 to
the aircraft sum, and a missing density-grid `count` contributes 0 to
`totalAffected` and is not a high-count cell. -/
theorem claim_C10_stats_totality :
    (∀ src, jammingCalculateStats none src = zeroStats) ∧
    (∀ src, jammingCalculateStats (some ⟨none⟩) src = zeroStats) ∧
    (∀ mode, spoofingCalculateStats mode none = zeroStats ∧
      spoofingCalculateStats mode (some ⟨none⟩) = zeroStats) ∧
    (∀ (fs : List Feature) (f : Feature), f.properties.ratio_bad = none →
      (jammingCalculateStats (fcInput ⟨f :: fs⟩) "jamming/agg").highSeverityCells
        = (jammingCalculateStats (fcInput ⟨fs⟩) "jamming/agg").highSeverityCells) ∧
    (∀ (fs : List Feature) (f : Feature), f.properties.n_unique_ac = none →
      (jammingCalculateStats (fcInput ⟨f :: fs⟩) "jamming/agg").uniqueAircraft
        = (jammingCalculateStats (fcInput ⟨fs⟩) "jamming/agg").uniqueAircraft) ∧
    (∀ (fs : List Feature) (f : Feature), f.properties.count = none →
      (spoofingCalculateStats "h3" (fcInput ⟨f :: fs⟩)).totalAffected
        = (spoofingCalculateStats "h3" (fcInput ⟨fs⟩)).totalAffected ∧
      (spoofingCalculateStats "h3" (fcInput ⟨f :: fs⟩)).highCountCells
        = (spoofingCalculateStats "h3" (fcInput ⟨fs⟩)).highCountCells) := by
  refine ⟨fun src => rfl, fun src => rfl, fun mode => ⟨rfl, rfl⟩, ?_, ?_, ?_⟩
  · intro fs f h
    rw [jammingAggStats_eq, jammingAggStats_eq]
    simp only [Option.some.injEq]
    refine List.countP_cons_of_neg _ _ ?_
    simp only [h, Option.getD_none, decide_eq_true_eq]
    norm_num
  · intro fs f h
    rw [jammingAggStats_eq, jammingAggStats_eq]
    simp [h]
  · intro fs f h
    rw [spoofingH3Stats_eq, spoofingH3Stats_eq]
    constructor
    · simp [h]
    · simp only [Option.some.injEq]
      refine List.countP_cons_of_neg _ _ ?_
      simp only [h, Option.getD_none, decide_eq_true_eq]
      norm_num

/-- C10 witness: the per-feature clauses of the theorem evaluated on a feature
with no properties at all. -/
theorem claim_C10_stats_totality_witness :
    (jammingCalculateStats (fcInput ⟨[⟨0, {}⟩]⟩) "jamming/agg").highSeverityCells
        = (jammingCalculateStats (fcInput ⟨[]⟩) "jamming/agg").highSeverityCells ∧
    (spoofingCalculateStats "h3" (fcInput ⟨[⟨0, {}⟩]⟩)).totalAffected
        = (spoofingCalculateStats "h3" (fcInput ⟨[]⟩)).totalAffected :=
  ⟨claim_C10_stats_totality.2.2.2.1 [] ⟨0, {}⟩ rfl,
   (claim_C10_stats_totality.2.2.2.2.2 [] ⟨0, {}⟩ rfl).1⟩

/-! ### Authenticating proxy (src/proxy-server.js)

The HTTP server and the outbound HTTPS request are modelled as pure data:
`handleRequest` maps an incoming request to the response written plus the
forwarded upstream request, if any (`none` = upstream never contacted).  The
upstream is a parameter mapping the forwarded request to either a response or
a connection error (the `apiReq.on('error')` path).  `now` stands for the
`new Date().toISOString()` in the health body. -/

/-- The two secrets loaded from `.env` at startup (lines 20-54). -/
structure ProxyEnv where
  API_KEY : String
  CLIENT_ID : String
deriving Repr, DecidableEq, Inhabited

/-- An incoming HTTP request as the handler sees it. -/
structure HttpRequest where
  method : String
  url : String
  body : String := ""
deriving Repr, DecidableEq, Inhabited

/-- The outbound request built in `proxyRequest` (lines 59-71, 117-122):
fixed upstream host, same path/query, same method, injected headers, and the
body piped through for non-GET/HEAD methods. -/
structure ForwardedRequest where
  hostname : String
  path : String
  method : String
  headers : List (String × String)
  body : Option String
deriving Repr, DecidableEq, Inhabited

/-- What the upstream answers: status, the two optional period headers the
proxy mirrors, and the piped body. -/
structure UpstreamResponse where
  statusCode : Nat := 200
  periodStart : Option String := none
  periodEnd : Option String := none
  body : String := ""
deriving Repr, DecidableEq, Inhabited

/-- The response written to the client (headers in the order they are set). -/
structure ProxyResponse where
  statusCode : Nat
  headers : List (String × String)
  body : String
deriving Repr, DecidableEq, Inhabited

/-- The 404 diagnostic body (lines 162-169). -/
def notFoundBody : String :=
  "\x7b\"error\":\"Not found\",\"message\":\"This proxy only handles /db-api/* paths\",\"hint\":\"Try: http://localhost:3333/db-api/v1/spoofing/agg/sample\"\x7d"

/-- The health body (lines 147-154); `now` is the dynamic timestamp. -/
def healthBody (now : String) : String :=
  "\x7b\"status\":\"ok\",\"service\":\"SkAI API Proxy\",\"target\":\"https://gpswise.aero\",\"timestamp\":\"" ++ now ++ "\"\x7d"

/-- The 502 body (lines 107-112). -/
def bad502Body (message : String) : String :=
  "\x7b\"error\":\"Failed to connect to SkAI API\",\"message\":\"" ++ message ++ "\"\x7d"

/-- Lines 59-71 and 117-122 of proxy-server.js: the forwarded request. -/
def buildForward (env : ProxyEnv) (req : HttpRequest) : ForwardedRequest :=
  { hostname := "gpswise.aero",
    path := req.url,
    method := req.method,
    headers := [("X-API-Key", env.API_KEY), ("X-Client-ID", env.CLIENT_ID),
                ("Accept", "application/json"), ("User-Agent", "SkAI-Proxy/1.0")],
    body := if req.method = "GET" ∨ req.method = "HEAD" then none else some req.body }

/-- proxy-server.js `proxyRequest` response handling (lines 75-115): on an
upstream response, set the CORS headers and content type, mirror
`x-period-start`/`x-period-end` when present, and pass status and body
through; on a connection error, answer 502 with only the wildcard-origin and
content-type headers and the `{error, message}` body. -/
def proxyRequest (env : ProxyEnv) (req : HttpRequest)
    (upstreamResult : Except String UpstreamResponse) : ProxyResponse :=
  match upstreamResult with
  | .ok apiRes =>
    { statusCode := apiRes.statusCode,
      headers :=
        [("Access-Control-Allow-Origin", "*"),
         ("Access-Control-Allow-Methods", "GET, POST, OPTIONS"),
         ("Access-Control-Allow-Headers", "Content-Type"),
         ("Content-Type", "application/json")]
        ++ (match apiRes.periodStart with
            | some v => [("x-period-start", v)]
            | none => [])
        ++ (match apiRes.periodEnd with
            | some v => [("x-period-end", v)]
            | none => []),
      body := apiRes.body }
  | .error message =>
    { statusCode := 502,
      headers := [("Access-Control-Allow-Origin", "*"),
                  ("Content-Type", "application/json")],
      body := bad502Body message }

/-- The main server handler (proxy-server.js lines 127-180): OPTIONS
preflight first (204, never reaches upstream), then the health paths, then
the 404 for paths outside `/db-api/`, then forwarding. -/
def handleRequest (env : ProxyEnv)
    (upstream : ForwardedRequest → Except String UpstreamResponse)
    (now : String) (req : HttpRequest) : ProxyResponse × Option ForwardedRequest :=
  if req.method = "OPTIONS" then
    ({ statusCode := 204,
       headers := [("Access-Control-Allow-Origin", "*"),
                   ("Access-Control-Allow-Methods", "GET, POST, OPTIONS"),
                   ("Access-Control-Allow-Headers", "Content-Type"),
                   ("Access-Control-Max-Age", "86400")],
       body := "" }, none)
  else if req.url = "/" ∨ req.url = "/health" then
    ({ statusCode := 200, headers := [("Content-Type", "application/json")],
       body := healthBody now }, none)
  else if ¬ req.url.startsWith "/db-api/" then
    ({ statusCode := 404, headers := [("Content-Type", "application/json")],
       body := notFoundBody }, none)
  else
    let targetReq := buildForward env req
    (proxyRequest env req (upstream targetReq), some targetReq)

/-- C8 counterexample: an OPTIONS request whose path starts with `/db-api/`
is answered 204 by the preflight branch and is never forwarded upstream, so
the claim "for every request whose path starts with /db-api/, the proxy
forwards it" fails as stated. -/
theorem claim_C8_counterexample :
    (handleRequest ⟨"key", "client"⟩ (fun _ => .ok {}) "t0"
        { method := "OPTIONS", url := "/db-api/v1/x" }).2 = none ∧
    (handleRequest ⟨"key", "client"⟩ (fun _ => .ok {}) "t0"
        { method := "OPTIONS", url := "/db-api/v1/x" }).1.statusCode = 204 :=
  ⟨rfl, rfl⟩

/-- C8 (amended to non-OPTIONS requests, OPTIONS being answered by the
preflight branch): a non-OPTIONS request with a `/db-api/` path is forwarded
to the fixed upstream host with both secret headers attached, and when the
upstream responds, its status and body pass through with
`x-period-start`/`x-period-end` mirrored back exactly when present; a
non-OPTIONS request whose path is neither health path (`/`, `/health`) nor a
`/db-api/` path gets the 404 diagnostic without contacting upstream. -/
theorem claim_C8_proxy_routing (env : ProxyEnv)
    (upstream : ForwardedRequest → Except String UpstreamResponse)
    (now : String) (req : HttpRequest) (hm : req.method ≠ "OPTIONS") :
    (req.url.startsWith "/db-api/" = true →
      (handleRequest env upstream now req).2 = some (buildForward env req) ∧
      ("X-API-Key", env.API_KEY) ∈ (buildForward env req).headers ∧
      ("X-Client-ID", env.CLIENT_ID) ∈ (buildForward env req).headers ∧
      (buildForward env req).hostname = "gpswise.aero" ∧
      (∀ resp, upstream (buildForward env req) = .ok resp →
        (handleRequest env upstream now req).1.statusCode = resp.statusCode ∧
        (handleRequest env upstream now req).1.body = resp.body ∧
        (handleRequest env upstream now req).1.headers.lookup "x-period-start"
            = resp.periodStart ∧
        (handleRequest env upstream now req).1.headers.lookup "x-period-end"
            = resp.periodEnd)) ∧
    (req.url.startsWith "/db-api/" = false → req.url ≠ "/" → req.url ≠ "/health" →
      (handleRequest env upstream now req).2 = none ∧
      (handleRequest env upstream now req).1.statusCode = 404 ∧
      (handleRequest env upstream now req).1.body = notFoundBody) := by
  constructor
  · intro hpre
    have h1 : req.url ≠ "/" := by
      intro he
      rw [he] at hpre
      exact absurd hpre (by decide)
    have h2 : req.url ≠ "/health" := by
      intro he
      rw [he] at hpre
      exact absurd hpre (by decide)
    have hrw : handleRequest env upstream now req
        = (proxyRequest env req (upstream (buildForward env req)),
           some (buildForward env req)) := by
      unfold handleRequest
      rw [if_neg hm, if_neg (by simp [h1, h2]), if_neg (by simp [hpre])]
    refine ⟨by rw [hrw], by simp [buildForward], by simp [buildForward], rfl, ?_⟩
    intro resp hresp
    rw [hrw, hresp]
    cases hps : resp.periodStart <;> cases hpe : resp.periodEnd <;>
      simp [proxyRequest, hps, hpe, List.lookup]
  · intro hpre h1 h2
    have hrw : handleRequest env upstream now req
        = ({ statusCode := 404, headers := [("Content-Type", "application/json")],
             body := notFoundBody }, none) := by
      unfold handleRequest
      rw [if_neg hm, if_neg (by simp [h1, h2]), if_pos (by simp [hpre])]
    rw [hrw]
    exact ⟨rfl, rfl, rfl⟩

/-- C8 witness: the amended theorem at a concrete GET request to a `/db-api/`
path with an upstream that answers 200 with one period header present. -/
theorem claim_C8_proxy_routing_witness :
    (("/db-api/v1/jamming/agg" : String).startsWith "/db-api/" = true →
      (handleRequest ⟨"key", "client"⟩
          (fun _ => .ok { statusCode := 200, periodStart := some "2026-01-01", body := "B" })
          "t0" { method := "GET", url := "/db-api/v1/jamming/agg" }).2
        = some (buildForward ⟨"key", "client"⟩
            { method := "GET", url := "/db-api/v1/jamming/agg" }) ∧
      ("X-API-Key", "key") ∈ (buildForward ⟨"key", "client"⟩
          { method := "GET", url := "/db-api/v1/jamming/agg" }).headers ∧
      ("X-Client-ID", "client") ∈ (buildForward ⟨"key", "client"⟩
          { method := "GET", url := "/db-api/v1/jamming/agg" }).headers ∧
      (buildForward ⟨"key", "client"⟩
          { method := "GET", url := "/db-api/v1/jamming/agg" }).hostname = "gpswise.aero" ∧
      (∀ resp,
        (fun (_ : ForwardedRequest) =>
            (.ok { statusCode := 200, periodStart := some "2026-01-01", body := "B" } :
              Except String UpstreamResponse))
          (buildForward ⟨"key", "client"⟩
            { method := "GET", url := "/db-api/v1/jamming/agg" }) = .ok resp →
        (handleRequest ⟨"key", "client"⟩
            (fun _ => .ok { statusCode := 200, periodStart := some "2026-01-01", body := "B" })
            "t0" { method := "GET", url := "/db-api/v1/jamming/agg" }).1.statusCode
          = resp.statusCode ∧
        (handleRequest ⟨"key", "client"⟩
            (fun _ => .ok { statusCode := 200, periodStart := some "2026-01-01", body := "B" })
            "t0" { method := "GET", url := "/db-api/v1/jamming/agg" }).1.body = resp.body ∧
        (handleRequest ⟨"key", "client"⟩
            (fun _ => .ok { statusCode := 200, periodStart := some "2026-01-01", body := "B" })
            "t0" { method := "GET", url := "/db-api/v1/jamming/agg" }).1.headers.lookup
            "x-period-start" = resp.periodStart ∧
        (handleRequest ⟨"key", "client"⟩
            (fun _ => .ok { statusCode := 200, periodStart := some "2026-01-01", body := "B" })
            "t0" { method := "GET", url := "/db-api/v1/jamming/agg" }).1.headers.lookup
            "x-period-end" = resp.periodEnd)) ∧
    (("/db-api/v1/jamming/agg" : String).startsWith "/db-api/" = false →
      ("/db-api/v1/jamming/agg" : String) ≠ "/" →
      ("/db-api/v1/jamming/agg" : String) ≠ "/health" →
      (handleRequest ⟨"key", "client"⟩
          (fun _ => .ok { statusCode := 200, periodStart := some "2026-01-01", body := "B" })
          "t0" { method := "GET", url := "/db-api/v1/jamming/agg" }).2 = none ∧
      (handleRequest ⟨"key", "client"⟩
          (fun _ => .ok { statusCode := 200, periodStart := some "2026-01-01", body := "B" })
          "t0" { method := "GET", url := "/db-api/v1/jamming/agg" }).1.statusCode = 404 ∧
      (handleRequest ⟨"key", "client"⟩
          (fun _ => .ok { statusCode := 200, periodStart := some "2026-01-01", body := "B" })
          "t0" { method := "GET", url := "/db-api/v1/jamming/agg" }).1.body = notFoundBody) :=
  claim_C8_proxy_routing ⟨"key", "client"⟩
    (fun _ => .ok { statusCode := 200, periodStart := some "2026-01-01", body := "B" })
    "t0" { method := "GET", url := "/db-api/v1/jamming/agg" } (by decide)

/-- All three CORS headers (wildcard origin, allowed methods, allowed
headers) are present on a response. -/
def corsHeadersPresent (r : ProxyResponse) : Prop :=
  r.headers.lookup "Access-Control-Allow-Origin" = some "*" ∧
  r.headers.lookup "Access-Control-Allow-Methods" = some "GET, POST, OPTIONS" ∧
  r.headers.lookup "Access-Control-Allow-Headers" = some "Content-Type"

/-- None of the three CORS headers is present on a response. -/
def corsHeadersAbsent (r : ProxyResponse) : Prop :=
  r.headers.lookup "Access-Control-Allow-Origin" = none ∧
  r.headers.lookup "Access-Control-Allow-Methods" = none ∧
  r.headers.lookup "Access-Control-Allow-Headers" = none

/-- C9 counterexample: the health-check 200 response carries no
`Access-Control-Allow-Origin` header at all (lines 144-156 set only
`Content-Type`), so the claim that every response carries the CORS headers
fails as stated. -/
theorem claim_C9_counterexample :
    (handleRequest ⟨"key", "client"⟩ (fun _ => .ok {}) "t0"
        { method := "GET", url := "/health" }).1.statusCode = 200 ∧
    (handleRequest ⟨"key", "client"⟩ (fun _ => .ok {}) "t0"
        { method := "GET", url := "/health" }).1.headers.lookup
        "Access-Control-Allow-Origin" = none :=
  ⟨rfl, rfl⟩

/-- C9 (amended): only the preflight 204 and forwarded upstream responses
carry all three CORS headers (wildcard origin, methods `GET, POST, OPTIONS`,
allowed header `Content-Type`); the 502 upstream-failure response carries the
wildcard origin but neither of the other two; the health 200 and the 404
responses carry none of the three. -/
theorem claim_C9_cors_headers (env : ProxyEnv)
    (upstream : ForwardedRequest → Except String UpstreamResponse)
    (now : String) (req : HttpRequest) :
    (req.method = "OPTIONS" →
      corsHeadersPresent (handleRequest env upstream now req).1) ∧
    (req.method ≠ "OPTIONS" → req.url.startsWith "/db-api/" = true →
      (∀ resp, upstream (buildForward env req) = .ok resp →
        corsHeadersPresent (handleRequest env upstream now req).1) ∧
      (∀ msg, upstream (buildForward env req) = .error msg →
        (handleRequest env upstream now req).1.headers.lookup
            "Access-Control-Allow-Origin" = some "*" ∧
        (handleRequest env upstream now req).1.headers.lookup
            "Access-Control-Allow-Methods" = none ∧
        (handleRequest env upstream now req).1.headers.lookup
            "Access-Control-Allow-Headers" = none)) ∧
    (req.method ≠ "OPTIONS" → (req.url = "/" ∨ req.url = "/health") →
      corsHeadersAbsent (handleRequest env upstream now req).1) ∧
    (req.method ≠ "OPTIONS" → req.url.startsWith "/db-api/" = false →
      req.url ≠ "/" → req.url ≠ "/health" →
      corsHeadersAbsent (handleRequest env upstream now req).1) := by
  refine ⟨?_, ?_, ?_, ?_⟩
  · intro hm
    unfold handleRequest
    rw [if_pos hm]
    exact ⟨rfl, rfl, rfl⟩
  · intro hm hpre
    have h1 : req.url ≠ "/" := by
      intro he; rw [he] at hpre; exact absurd hpre (by decide)
    have h2 : req.url ≠ "/health" := by
      intro he; rw [he] at hpre; exact absurd hpre (by decide)
    have hrw : handleRequest env upstream now req
        = (proxyRequest env req (upstream (buildForward env req)),
           some (buildForward env req)) := by
      unfold handleRequest
      rw [if_neg hm, if_neg (by simp [h1, h2]), if_neg (by simp [hpre])]
    constructor
    · intro resp hresp
      rw [hrw, hresp]
      cases hps : resp.periodStart <;> cases hpe : resp.periodEnd <;>
        exact ⟨rfl, rfl, rfl⟩
    · intro msg hmsg
      rw [hrw, hmsg]
      exact ⟨rfl, rfl, rfl⟩
  · intro hm hh
    unfold handleRequest
    rw [if_neg hm, if_pos hh]
    exact ⟨rfl, rfl, rfl⟩
  · intro hm hpre h1 h2
    unfold handleRequest
    rw [if_neg hm, if_neg (by simp [h1, h2]), if_pos (by simp [hpre])]
    exact ⟨rfl, rfl, rfl⟩

/-- C9 witness: the amended theorem at a concrete request, checking the
preflight clause on an OPTIONS request to the health path. -/
theorem claim_C9_cors_headers_witness :
    corsHeadersPresent
      (handleRequest ⟨"key", "client"⟩ (fun _ => .ok {}) "t0"
        { method := "OPTIONS", url := "/" }).1 :=
  (claim_C9_cors_headers ⟨"key", "client"⟩ (fun _ => .ok {}) "t0"
    { method := "OPTIONS", url := "/" }).1 rfl

end GpsDemo
